import Mathlib

/-!
Verification of the hartnet Art-Net engine (src/hartnet.js).

The definitions below are a shallow embedding of the JavaScript source.
JavaScript bitwise operators coerce their operands to 32-bit integers
(ToInt32 / ToUint32); `toUint32`, `toInt32`, `jsShl`, `jsShr`, `jsAnd`
and `jsOr` reproduce that semantics over `Int`.  Buffers are `List Nat`
with every element a byte (0..255); IPv4 addresses are naturals below
2^32.
-/

namespace Hartnet

/-! ### JavaScript 32-bit coercions -/

/-- ECMAScript ToUint32 of an integer: the representative of `n` modulo 2^32. -/
def toUint32 (n : Int) : Nat := (n % 4294967296).toNat

/-- ECMAScript ToInt32 of an integer: the two-complement reinterpretation of
`toUint32 n`. -/
def toInt32 (n : Int) : Int :=
  if toUint32 n < 2147483648 then (toUint32 n : Int)
  else (toUint32 n : Int) - 4294967296

/-- JavaScript `a << b`: shift the 32-bit coercion of `a` left by `b mod 32`
and wrap the result to a signed 32-bit integer. -/
def jsShl (a b : Int) : Int := toInt32 ((toUint32 a <<< (toUint32 b % 32) : Nat) : Int)

/-- JavaScript `a >> b` (sign-propagating right shift): floor-divide the
signed 32-bit coercion of `a` by `2 ^ (b mod 32)`. -/
def jsShr (a b : Int) : Int := Int.fdiv (toInt32 a) ((2 : Int) ^ (toUint32 b % 32))

/-- JavaScript `a & b` on 32-bit coercions. -/
def jsAnd (a b : Int) : Int := toInt32 ((toUint32 a &&& toUint32 b : Nat) : Int)

/-- JavaScript `a | b` on 32-bit coercions. -/
def jsOr (a b : Int) : Int := toInt32 ((toUint32 a ||| toUint32 b : Nat) : Int)

/-! ### Port-address computation (Sender/Receiver constructors)

From src/hartnet.js lines 630-641 (Sender) and 821-833 (Receiver), which run
the same statements:

    this.options.subnet += this.options.universe >> 4;
    this.options.universe = this.options.universe & 0x0F;
    this.options.net += this.options.subnet >> 4;
    this.options.subnet = this.options.subnet & 0x0F;
    this.port_subuni  = (this.options.subnet << 4) | this.options.universe;
    this.port_address = (this.options.net << 8) | this.port_subuni;
    if (this.port_address > 32767) { ... Invalid Port Address ... }
-/

/-- `subnet` after receiving the carry out of `univ`. -/
def carriedSubnet (subnet univ : Int) : Int := subnet + jsShr univ 4

/-- `univ` after being masked to its low 4 bits. -/
def carriedUniverse (univ : Int) : Int := jsAnd univ 15

/-- `net` after receiving the carry out of the carried `subnet`. -/
def carriedNet (net subnet univ : Int) : Int :=
  net + jsShr (carriedSubnet subnet univ) 4

/-- The carried `subnet` masked to its low 4 bits. -/
def finalSubnet (subnet univ : Int) : Int := jsAnd (carriedSubnet subnet univ) 15

/-- `this.port_subuni = (subnet << 4) | univ` after carrying. -/
def port_subuni (subnet univ : Int) : Int :=
  jsOr (jsShl (finalSubnet subnet univ) 4) (carriedUniverse univ)

/-- `this.port_address = (net << 8) | port_subuni` after carrying. -/
def port_address (net subnet univ : Int) : Int :=
  jsOr (jsShl (carriedNet net subnet univ) 8) (port_subuni subnet univ)

/-- The constructor raises its Invalid Port Address error exactly when the
computed `port_address` exceeds 32767. -/
def portAddressError (net subnet univ : Int) : Bool :=
  port_address net subnet univ > 32767

/-! ### Netmask and Receiver (src/hartnet.js lines 801-875) -/

/-- A CIDR filter: `base` address and prefix length `bits` (the `netmask`
package computes `contains` by comparing the network parts). -/
structure Netmask where
  base : Nat
  bits : Nat
deriving DecidableEq, Repr

/-- `Netmask.prototype.contains(ip)`: the top `bits` bits of `ip` agree with
those of `base`. -/
def Netmask.contains (nm : Netmask) (ip : Nat) : Bool :=
  ip / 2 ^ (32 - nm.bits) == nm.base / 2 ^ (32 - nm.bits)

/-- IPv4 address from its four dotted-quad bytes. -/
def ipOf (a b c d : Nat) : Nat := ((a * 256 + b) * 256 + c) * 256 + d

/-- A constructed Receiver: its combined port address and its source filter.
`from = null` yields the all-accepting filter `0.0.0.0/0` (lines 836-843). -/
structure Receiver where
  port_address : Int
  ipnet : Netmask
deriving Repr

/-- Receiver construction: the port address is computed by the shared
carry/validate statements; the `from` option (already split into a base
address and prefix length, with a missing mask meaning `/32`) becomes the
CIDR filter, defaulting to `0.0.0.0/0`. -/
def mkReceiver (net subnet univ : Int) (fromCidr : Option Netmask) : Receiver :=
  { port_address := port_address net subnet univ
    ipnet := fromCidr.getD ⟨0, 0⟩ }

/-- `Receiver.acceptPacket(p_address, rinfo)` (line 862-864):
`(p_address == this.port_address) && this.ipnet.contains(rinfo.address)`. -/
def acceptPacket (r : Receiver) (p_address : Nat) (srcIp : Nat) : Bool :=
  ((p_address : Int) == r.port_address) && r.ipnet.contains srcIp

/-! ### dataParser: common gate and the ArtDmx branch (lines 167-220) -/

/-- The 8 header bytes the parser requires: the string Art-Net followed by a
null byte. -/
def artnetHeader : List Nat := [65, 114, 116, 45, 78, 101, 116, 0]

/-- Opcode assembled little-endian from bytes 8 and 9. -/
def opcodeOf (msg : List Nat) : Nat := msg.getD 8 0 + msg.getD 9 0 * 256

/-- The checks every packet passes before the opcode switch: size at least
10, the Art-Net header, and a non-zero opcode. -/
def headerGate (msg : List Nat) : Bool :=
  decide (msg.length ≥ 10) && (msg.take 8 == artnetHeader) && decide (opcodeOf msg ≠ 0)

/-- The low-byte port address of an ArtDmx packet, read at offset 14; a
buffer too short to hold offset 14 yields `none` (jspack returns undefined,
which compares unequal to every port address). -/
def dmxPAddress (msg : List Nat) : Option Nat := msg[14]?

/-- The decoded channel array of an ArtDmx packet: bytes 18 onward
(`msg.readUInt8(ch + 17)` for `ch = 1 .. msg.length - 18`). -/
def artDmxData (msg : List Nat) : List Nat := msg.drop 18

/-- Whether `dataParser` hands the decoded channel array of `msg` to
receiver `r`: the common gate, opcode 0x5000, and `acceptPacket` on the
byte at offset 14 and the source address of the datagram. -/
def receivesDmx (r : Receiver) (msg : List Nat) (srcIp : Nat) : Bool :=
  headerGate msg && (opcodeOf msg == 0x5000) &&
    (match dmxPAddress msg with
     | some p => acceptPacket r p srcIp
     | none => false)

/-! ### ArtDmx encoding (Sender.transmit, lines 698-719)

    jspack.Pack("!7sBHHBBBBH" + "512B",
      ["Art-Net", 0, 0x0050, 14, this.ArtDmxSeq, 0,
       this.port_subuni, this.options.net, 512].concat(this.values))

`!` makes multi-byte fields big-endian; `B` fields keep the low byte of
their value.  The byte layout is therefore: header (8), opcode 0x0050
big-endian (2), protocol version 14 big-endian (2), sequence (1),
physical port 0 (1), subuni (1), net (1), length big-endian (2), data. -/

/-- Big-endian 16-bit field, as jspack packs an `H`. -/
def packH (v : Nat) : List Nat := [v / 256 % 256, v % 256]

/-- The ArtDmx wire packet for the stated header fields and data bytes.
`Sender.transmit` always uses `data = this.values` of length 512 and packs
the constant length 512; this function keeps the identical layout with the
actual data length in the length field (the layout the spec states for
arrays of 1..512 channels). -/
def encodeArtDmx (seq subuni net : Nat) (data : List Nat) : List Nat :=
  artnetHeader ++ packH 0x0050 ++ packH 14 ++
    [seq % 256, 0, subuni % 256, net % 256] ++ packH data.length ++ data.map (· % 256)

/-- The exact packet `Sender.transmit` sends: the same layout with the
constant length 512 and the 512-entry channel buffer as data. -/
def transmitPacket (seq subuni net : Nat) (values : List Nat) : List Nat :=
  artnetHeader ++ packH 0x0050 ++ packH 14 ++
    [seq % 256, 0, subuni % 256, net % 256] ++ packH 512 ++ values.map (· % 256)

/-- The sequence byte of an ArtDmx packet sits at offset 12 of the packed
layout. -/
def dmxSeqByte (msg : List Nat) : Option Nat := msg[12]?

/-- The net byte of an ArtDmx packet sits at offset 15 of the packed
layout. -/
def dmxNetByte (msg : List Nat) : Option Nat := msg[15]?

/-! ### ArtPoll decoding (dataParser case 0x2000, lines 224-271) -/

/-- A foreign controller record as built by the ArtPoll branch. -/
structure Controller where
  ip : Nat
  diagnostic_unicast : Bool
  diagnostic_enable : Bool
  unilateral : Bool
  priority : Nat
deriving DecidableEq, Repr

/-- The ArtPoll branch of `dataParser`: `none` means the datagram is
silently discarded (no controller inserted or updated, no ArtPollReply
sent); `some c` means controller record `c` is upserted and a reply is
sent.  The protocol version is assembled from byte 10 plus 256 times
byte 11, and rejected when zero or below 14. -/
def parseArtPoll (msg : List Nat) (srcIp : Nat) : Option Controller :=
  if ¬ (headerGate msg && (opcodeOf msg == 0x2000)) then none
  else if msg.length < 14 then none
  else
    let proto := msg.getD 10 0 + msg.getD 11 0 * 256
    if proto < 14 then none
    else
      let ttm := msg.getD 12 0
      some { ip := srcIp
             diagnostic_unicast := ttm &&& 8 > 0
             diagnostic_enable := ttm &&& 4 > 0
             unilateral := ttm &&& 2 > 0
             priority := msg.getD 13 0 }

/-- The protocol-version field of an ArtPoll read big-endian, as the claim
and spec describe the 2-byte field (byte 10 is the high byte). -/
def pollProtoBigEndian (msg : List Nat) : Nat := msg.getD 10 0 * 256 + msg.getD 11 0

/-! ### ArtPollReply port decoding (dataParser case 0x2100, lines 288-343)

The parser reassembles each 4-byte wire field into one 32-bit value,

    swIn: (unpacked[31] << 24) | (unpacked[32] << 16)
        | (unpacked[33] << 8) | unpacked[34],

and then reads, for port slot `i < min(numPorts, 4)`,

    portType  = (portTypes  >> (i * 8))    & 0xFF
    goodInput = (goodInput  >> i)          & 0x01
    universe  = (swIn       >> (28 - i*4)) & 0x0F

In JavaScript the combined value is a signed 32-bit integer and `>>` sign-
extends, but every read masks at most the low 8 bits of a shift by a
multiple of 4 ≤ 28, so the results coincide with plain natural-number
shifts of the unsigned combination used here. -/

/-- The 32-bit combination of a decoded 4-byte wire field, first wire byte
in the most significant position. -/
def combine32 (b : List Nat) : Nat :=
  (b.getD 0 0) <<< 24 ||| (b.getD 1 0) <<< 16 ||| (b.getD 2 0) <<< 8 ||| (b.getD 3 0)

/-- A port descriptor as pushed onto `apr.inPorts` / `apr.outPorts` and as
stored by `Node.updatePorts`. -/
structure ParsedPort where
  net : Nat
  subnet : Nat
  univ : Nat
  ip : Nat
  portNumber : Nat
  isGood : Bool
deriving DecidableEq, Repr

/-- The universe the decoder records for port slot `i`:
`(sw >> (28 - i * 4)) & 0x0F` on the 32-bit combination. -/
def decodedUniverse (sw : Nat) (i : Nat) : Nat := (sw >>> (28 - i * 4)) &&& 15

/-- The good flag the decoder records for port slot `i`:
`((good >> i) & 0x01) === 1` on the 32-bit combination. -/
def decodedGood (good : Nat) (i : Nat) : Bool := ((good >>> i) &&& 1) == 1

/-- The port-parsing loop of the ArtPollReply branch: given the five 4-byte
wire fields (as byte lists, first wire byte first) and the net,
subnet, source ip and bind index, produce `(inPorts, outPorts)`. -/
def parseReplyPorts (numPorts : Nat) (ptW giW goW siW soW : List Nat)
    (net subnet ip bindIndex : Nat) : List ParsedPort × List ParsedPort :=
  let pt := combine32 ptW
  let gi := combine32 giW
  let go := combine32 goW
  let si := combine32 siW
  let so := combine32 soW
  ((List.range (min numPorts 4)).filterMap fun i =>
      if (pt >>> (i * 8)) &&& 0xFF &&& 0x80 ≠ 0 then
        some ⟨net, subnet, decodedUniverse si i, ip, bindIndex * 4 + i, decodedGood gi i⟩
      else none,
   (List.range (min numPorts 4)).filterMap fun i =>
      if (pt >>> (i * 8)) &&& 0xFF &&& 0x40 ≠ 0 then
        some ⟨net, subnet, decodedUniverse so i, ip, bindIndex * 4 + i, decodedGood go i⟩
      else none)

/-! ### ArtPollReply encoding of the port fields (createPacket, lines 459-496)

    devices.slice(0, 4).forEach((device, index) => {
      const isSender = device instanceof Sender;
      portTypes |= (isSender ? 0x40 : 0x80) << (index * 8);
      if (isSender) { goodOutput |= 0x01 << index;
                      swOut |= (device.options.universe & 0x0F) << (index * 4); }
      else          { goodInput  |= 0x01 << index;
                      swIn  |= (device.options.universe & 0x0F) << (index * 4); }
    });

followed by the serialization into the wire bytes of the packet.  (JavaScript
may make `portTypes` negative via `0x80 << 24`; only its serialized bytes
are used, which agree with the natural-number model.) -/

/-- A device as seen by the packing loop: whether it is a Sender (output
port) and its universe nibble. -/
structure DevicePort where
  isSender : Bool
  univ : Nat
deriving DecidableEq, Repr

/-- The packing loop: returns `(portTypes, goodInput, goodOutput, swIn,
swOut)` as 32-bit accumulators. -/
def packPortFields (devs : List DevicePort) : Nat × Nat × Nat × Nat × Nat :=
  ((devs.take 4).enum).foldl
    (fun acc p =>
      let (pt, gi, go, si, so) := acc
      let (i, d) := p
      if d.isSender then
        (pt ||| (0x40 <<< (i * 8)), gi, go ||| (1 <<< i), si,
         so ||| ((d.univ &&& 0xF) <<< (i * 4)))
      else
        (pt ||| (0x80 <<< (i * 8)), gi ||| (1 <<< i), go,
         si ||| ((d.univ &&& 0xF) <<< (i * 4)), so))
    (0, 0, 0, 0, 0)

/-- Wire serialization of `portTypes` (basePacket[19..22]): most significant
byte first. -/
def portTypesWire (pt : Nat) : List Nat :=
  [pt >>> 24 &&& 255, pt >>> 16 &&& 255, pt >>> 8 &&& 255, pt &&& 255]

/-- Wire serialization of `goodInput` / `goodOutput` (basePacket[23..26] /
[27..30]): only the lowest byte, the rest zero. -/
def goodWire (g : Nat) : List Nat := [g &&& 255, 0, 0, 0]

/-- Wire serialization of `swIn` / `swOut` (basePacket[31..34] / [35..38]):
least significant byte first. -/
def swWire (sw : Nat) : List Nat :=
  [sw &&& 255, sw >>> 8 &&& 255, sw >>> 16 &&& 255, sw >>> 24 &&& 255]

/-! ### pollReply grouping (hartnet.ArtPollReply, lines 435-531) -/

/-- A locally owned Sender or Receiver as the grouping step sees it: the
interfaces it resolved at construction, its net/subnet/universe options,
and whether it is a Sender.  Grouping keys on `(interface, net, subnet)`
only. -/
structure PRDevice where
  ifaceIps : List Nat
  net : Int
  subnet : Int
  univ : Int
  isSender : Bool
deriving DecidableEq, Repr

/-- Insert a device under its key, preserving JavaScript `Map` insertion
order: an existing key keeps its position and appends the device; a new key
goes to the back. -/
def addToGroups (gs : List ((Nat × Int × Int) × List PRDevice))
    (k : Nat × Int × Int) (d : PRDevice) : List ((Nat × Int × Int) × List PRDevice) :=
  match gs with
  | [] => [(k, [d])]
  | (k0, ds) :: rest =>
    if k0 = k then (k0, ds ++ [d]) :: rest else (k0, ds) :: addToGroups rest k d

/-- Group every device by `(interface ip, net, subnet)`, iterating devices
in list order and the interfaces of each device in order. -/
def groupDevices (devs : List PRDevice) : List ((Nat × Int × Int) × List PRDevice) :=
  devs.foldl
    (fun gs d => d.ifaceIps.foldl (fun gs ip => addToGroups gs (ip, d.net, d.subnet) d) gs)
    []

/-- The observable shape of one emitted ArtPollReply packet. -/
structure ReplyPacket where
  ifaceIp : Nat
  bindIndex : Nat
  numPorts : Nat
deriving DecidableEq, Repr

/-- The packets one group emits: `Math.ceil(devices.length / 4)` chunks,
chunk `i` holding `devices.slice(i*4, (i+1)*4)` with `bindIndex = i` and
`numPorts = Math.min(chunk.length, 4)`. -/
def groupPackets (k : Nat × Int × Int) (ds : List PRDevice) : List ReplyPacket :=
  (List.range ((ds.length + 3) / 4)).map fun i =>
    { ifaceIp := k.1, bindIndex := i, numPorts := min ((ds.drop (i * 4)).take 4).length 4 }

/-- One `pollReply()` invocation: all packets in group order, then the
global reply counter incremented once modulo 10000 (line 529) and the
last-reply timestamp recorded once (line 530). -/
def pollReply (devs : List PRDevice) (counter : Nat) (now : Nat) :
    List ReplyPacket × Nat × Nat :=
  ((groupDevices devs).flatMap (fun g => groupPackets g.1 g.2), (counter + 1) % 10000, now)

/-! ### Node registry (class Node, lines 537-601) -/

/-- A discovered remote node.  `inPorts`/`outPorts` are JavaScript objects
keyed by port number; integer-like keys enumerate in ascending order, so a
key-sorted association list is the canonical model. -/
structure NodeS where
  mac : Nat
  ip : Option Nat
  shortName : String
  longName : String
  status : String
  lastUpdate : Nat
  inPorts : List (Nat × ParsedPort)
  outPorts : List (Nat × ParsedPort)
deriving DecidableEq, Repr

/-- A fresh `new Node(mac)` (lines 538-547). -/
def newNode (mac : Nat) : NodeS :=
  { mac := mac, ip := none, shortName := "", longName := "", status := ""
    lastUpdate := 0, inPorts := [], outPorts := [] }

/-- The decoded ArtPollReply record handed to `updateFromArtPollReply`. -/
structure ReplyRecord where
  mac : Nat
  ip : Nat
  shortName : String
  longName : String
  nodeReport : String
  inPorts : List ParsedPort
  outPorts : List ParsedPort
deriving DecidableEq, Repr

/-- Insert or replace `existingPorts[port.portNumber]`, keeping the
association list sorted by key. -/
def insertPort : List (Nat × ParsedPort) → Nat → ParsedPort → List (Nat × ParsedPort)
  | [], k, p => [(k, p)]
  | (k0, p0) :: rest, k, p =>
    if k < k0 then (k, p) :: (k0, p0) :: rest
    else if k = k0 then (k, p) :: rest
    else (k0, p0) :: insertPort rest k p

/-- `Node.isCompatibleWithLocalInterfaces` (lines 591-595) over the cached
interface list `(ip, netmask)`. -/
def isCompatible (ifaces : List (Nat × Netmask)) (remoteIp : Nat) : Bool :=
  ifaces.any fun i => i.1 == remoteIp || i.2.contains remoteIp

/-- `Node.updatePorts` (lines 576-589): record each advertised port whose
IP is compatible with a local interface. -/
def updatePorts (ifaces : List (Nat × Netmask)) (newPorts : List ParsedPort)
    (existing : List (Nat × ParsedPort)) : List (Nat × ParsedPort) :=
  newPorts.foldl
    (fun acc p => if isCompatible ifaces p.ip then insertPort acc p.portNumber p else acc)
    existing

/-- `Node.updateFromArtPollReply` (lines 549-574): update ip/names/ports,
compare the serialized node before and after (status and lastUpdate are
still their old values on both sides of that comparison), then overwrite
status and lastUpdate.  Returns the updated node and `didChange`. -/
def updateFromArtPollReply (ifaces : List (Nat × Netmask)) (node : NodeS)
    (data : ReplyRecord) (now : Nat) : NodeS × Bool :=
  if node.mac ≠ data.mac then (node, false)
  else
    let mid : NodeS :=
      { node with
        ip := some data.ip
        longName := data.longName
        shortName := data.shortName
        inPorts := updatePorts ifaces data.inPorts node.inPorts
        outPorts := updatePorts ifaces data.outPorts node.outPorts }
    ({ mid with status := data.nodeReport, lastUpdate := now }, decide (node ≠ mid))

/-! ### Poll suppression (lines 121-131 and 530) -/

/-- The guard of the periodic poll timer:
`(now - last_poll_reply) < poll_interval / 2` with real-number division,
which for integer times equals `2 * (now - last) < interval`. -/
def shouldSkipPoll (interval : Nat) (now last : Int) : Bool :=
  2 * (now - last) < (interval : Int)

/-- `last_poll_reply` after the ArtPoll branch ran on `msg` at time `now`:
an accepted ArtPoll calls `ArtPollReply()`, whose last line stores the
current time; a rejected one leaves the timestamp alone. -/
def lastReplyAfterArtPoll (msg : List Nat) (srcIp : Nat) (last now : Int) : Int :=
  if (parseArtPoll msg srcIp).isSome then now else last

/-- Whether the scheduled poll at time `now` actually sends an ArtPoll. -/
def scheduledPollSends (interval : Nat) (last now : Int) : Bool :=
  ! shouldSkipPoll interval now last

/-! ### Channel mutation (Sender.setChannel / prepChannel / fillChannels,
lines 727-776)

Each range check calls `this.handleError(new Error(...))`; `Sender` defines
no `handleError`, so that call itself throws synchronously and the
statements after it never run.  The model returns the raised message (if
any) together with the buffer after the call. -/

/-- `Sender.setChannel(channel, value)`. -/
def setChannel (values : List Int) (channel value : Int) : Option String × List Int :=
  if channel > 511 || channel < 0 then (some "Channel must be between 0 and 512", values)
  else if value > 255 || value < 0 then (some "Value must be between 0 and 255", values)
  else (none, values.set channel.toNat value)

/-- `Sender.prepChannel(channel, value)`: the same checks and write, without
the trailing `transmit()` (which does not touch the buffer). -/
def prepChannel (values : List Int) (channel value : Int) : Option String × List Int :=
  if channel > 511 || channel < 0 then (some "Channel must be between 0 and 512", values)
  else if value > 255 || value < 0 then (some "Value must be between 0 and 255", values)
  else (none, values.set channel.toNat value)

/-- `Sender.fillChannels(start, stop, value)`: three range checks, then
`for (i = start; i <= stop; i++) values[i] = value`. -/
def fillChannels (values : List Int) (start stop value : Int) :
    Option String × List Int :=
  if start > 511 || start < 0 then (some "Channel must be between 0 and 512", values)
  else if stop > 511 || stop < 0 then (some "Channel must be between 0 and 512", values)
  else if value > 255 || value < 0 then (some "Value must be between 0 and 255", values)
  else
    (none,
     (List.range (stop + 1 - start).toNat).foldl
       (fun vs j => vs.set (start.toNat + j) value) values)

/-! ### Concrete instances used by the evaluations below -/

/-- An ArtDmx packet whose net byte is 1 and whose port-address byte is 0. -/
def msgC1 : List Nat := encodeArtDmx 1 0 1 [0]

/-- A Receiver configured with net 1, subnet 0, universe 0, no source
filter. -/
def rxNet1 : Receiver := mkReceiver 1 0 0 none

/-- The Receiver of the spec example: universe 3 on net 0 / subnet 0,
source filter 10.0.0.5/32. -/
def rx1035 : Receiver := mkReceiver 0 0 3 (some ⟨ipOf 10 0 0 5, 32⟩)

/-- An ArtDmx packet addressed to universe 3 (net 0, subnet 0). -/
def msgU3 : List Nat := encodeArtDmx 1 3 0 [7]

/-- An ArtDmx packet addressed to universe 4 (net 0, subnet 0). -/
def msgU4 : List Nat := encodeArtDmx 1 4 0 [7]

/-- A 15-byte ArtDmx datagram: valid header and opcode, port-address byte 3
at offset 14, no length or data bytes. -/
def msg15 : List Nat := artnetHeader ++ [0, 0x50, 0, 14, 0, 0, 3]

/-- A 14-byte ArtPoll whose protocol-version bytes are 0 at offset 10 and
13 at offset 11, i.e. the value 13 when the field is read big-endian. -/
def msgPollBE13 : List Nat := artnetHeader ++ [0, 0x20, 0, 13, 0, 0]

/-- A well-formed 14-byte ArtPoll (protocol-version bytes 0 and 14). -/
def msgPollOk : List Nat := artnetHeader ++ [0, 0x20, 0, 14, 0, 0]

/-- A one-interface environment: 10.0.0.1 on 10.0.0.0/24. -/
def ifA : List (Nat × Netmask) := [(ipOf 10 0 0 1, ⟨ipOf 10 0 0 0, 24⟩)]

/-- A decoded ArtPollReply record for MAC 5 advertising one input port. -/
def rec0 : ReplyRecord :=
  ⟨5, ipOf 10 0 0 9, "sn", "ln", "#0001 ok", [⟨0, 0, 3, ipOf 10 0 0 9, 0, true⟩], []⟩

/-- `rec0` with only the node-report string changed. -/
def rec1 : ReplyRecord := { rec0 with nodeReport := "changed report" }

/-- `rec0` with only the short name changed. -/
def rec2 : ReplyRecord := { rec0 with shortName := "sn2" }

/-- `rec0` with only the good flag of its input port cleared. -/
def rec3 : ReplyRecord :=
  ⟨5, ipOf 10 0 0 9, "sn", "ln", "#0001 ok", [⟨0, 0, 3, ipOf 10 0 0 9, 0, false⟩], []⟩

/-- The node for MAC 5 after one update with `rec0`. -/
def node1 : NodeS := (updateFromArtPollReply ifA (newNode 5) rec0 100).1

/-! ## Arithmetic facts about the 32-bit coercions -/

theorem toUint32_small {n : Int} (h0 : 0 ≤ n) (h1 : n < 4294967296) :
    (toUint32 n : Int) = n := by
  unfold toUint32
  rw [Int.emod_eq_of_lt h0 h1, Int.toNat_of_nonneg h0]

theorem toUint32_small_nat {n : Int} (h0 : 0 ≤ n) (h1 : n < 4294967296) :
    toUint32 n = n.toNat := by
  have := toUint32_small h0 h1
  omega

theorem toInt32_small {n : Int} (h0 : 0 ≤ n) (h1 : n < 2147483648) :
    toInt32 n = n := by
  unfold toInt32
  rw [toUint32_small_nat h0 (by omega)]
  rw [if_pos (by omega)]
  omega

theorem jsShr_small {a : Int} (h0 : 0 ≤ a) (h1 : a < 2147483648) :
    jsShr a 4 = a / 16 := by
  unfold jsShr
  rw [toInt32_small h0 h1]
  have h4 : toUint32 4 % 32 = 4 := by decide
  rw [h4, Int.fdiv_eq_ediv _ (by norm_num)]
  norm_num

theorem jsAnd15_small {a : Int} (h0 : 0 ≤ a) (h1 : a < 2147483648) :
    jsAnd a 15 = a % 16 := by
  unfold jsAnd
  rw [toUint32_small_nat h0 (by omega)]
  have h15 : toUint32 15 = 15 := by decide
  rw [h15]
  have hmask : a.toNat &&& 15 = a.toNat % 16 := by
    have := Nat.and_pow_two_sub_one_eq_mod a.toNat 4
    norm_num at this
    exact this
  rw [hmask, toInt32_small (by positivity) (by omega)]
  omega

theorem jsShl_small {a : Int} {k : Nat} (h0 : 0 ≤ a) (hk : k < 32)
    (h1 : a * 2 ^ k < 2147483648) : jsShl a (k : Int) = a * 2 ^ k := by
  unfold jsShl
  have h2 : (1 : Int) ≤ 2 ^ k := one_le_pow₀ (by norm_num)
  have ha2 : a ≤ a * 2 ^ k := le_mul_of_one_le_right h0 h2
  have hkk : (0 : Int) ≤ (k : Int) ∧ (k : Int) < 4294967296 := by
    constructor
    · positivity
    · exact_mod_cast (by omega : k < 4294967296)
  have hk32 : toUint32 (k : Int) % 32 = k := by
    rw [toUint32_small_nat hkk.1 hkk.2]
    simp [Nat.mod_eq_of_lt hk]
  rw [hk32, toUint32_small_nat h0 (by omega)]
  rw [Nat.shiftLeft_eq]
  have hcast : ((a.toNat * 2 ^ k : Nat) : Int) = a * 2 ^ k := by
    push_cast
    rw [Int.toNat_of_nonneg h0]
  rw [hcast, toInt32_small (by nlinarith) h1]

theorem jsOr_disjoint {a b : Int} {k : Nat} (ha : 0 ≤ a) (hb : 0 ≤ b)
    (hbk : b < 2 ^ k) (hdiv : ((2 : Int) ^ k) ∣ a) (hlt : a + b < 2147483648) :
    jsOr a b = a + b := by
  unfold jsOr
  obtain ⟨m, hm⟩ := hdiv
  have h2 : (0 : Int) < 2 ^ k := by positivity
  have hm0 : 0 ≤ m := by nlinarith
  rw [toUint32_small_nat ha (by omega), toUint32_small_nat hb (by omega)]
  have hbn : b.toNat < 2 ^ k := by
    have hcast : (((2 : Nat) ^ k : Nat) : Int) = (2 : Int) ^ k := by push_cast; ring
    rw [Int.toNat_lt hb, hcast]
    exact hbk
  have han : a.toNat = 2 ^ k * m.toNat := by
    zify
    push_cast [Int.toNat_of_nonneg ha, Int.toNat_of_nonneg hm0]
    rw [hm]
  rw [han, ← Nat.mul_add_lt_is_or hbn m.toNat]
  rw [toInt32_small (by positivity) (by push_cast [← han]; omega)]
  push_cast [← han]
  omega

/-- The port-address computation for nonnegative inputs small enough that
no 32-bit wrap occurs: the carries ripple exactly as integer division and
remainder by 16. -/
theorem port_address_carry {net subnet univ : Int}
    (hn : 0 ≤ net) (hs : 0 ≤ subnet) (hu : 0 ≤ univ)
    (hu31 : univ < 2147483648)
    (hcs : subnet + univ / 16 < 2147483648)
    (hcn : net + (subnet + univ / 16) / 16 < 8388608) :
    port_address net subnet univ =
      (net + (subnet + univ / 16) / 16) * 256 +
        ((subnet + univ / 16) % 16) * 16 + univ % 16 := by
  have hdiv16 : (0 : Int) ≤ univ / 16 := Int.ediv_nonneg hu (by norm_num)
  have hcs0 : 0 ≤ subnet + univ / 16 := by omega
  have hcs16 : (0 : Int) ≤ (subnet + univ / 16) / 16 := Int.ediv_nonneg hcs0 (by norm_num)
  have hcn0 : 0 ≤ net + (subnet + univ / 16) / 16 := by omega
  have hm1 : 0 ≤ (subnet + univ / 16) % 16 := Int.emod_nonneg _ (by norm_num)
  have hm1b : (subnet + univ / 16) % 16 < 16 := Int.emod_lt_of_pos _ (by norm_num)
  have hm2 : 0 ≤ univ % 16 := Int.emod_nonneg _ (by norm_num)
  have hm2b : univ % 16 < 16 := Int.emod_lt_of_pos _ (by norm_num)
  unfold port_address port_subuni carriedNet finalSubnet carriedUniverse carriedSubnet
  rw [jsShr_small hu hu31]
  rw [jsShr_small hcs0 hcs]
  rw [jsAnd15_small hu hu31]
  rw [jsAnd15_small hcs0 hcs]
  have hshl4 : jsShl ((subnet + univ / 16) % 16) 4 = ((subnet + univ / 16) % 16) * 16 := by
    have := jsShl_small (a := (subnet + univ / 16) % 16) (k := 4) hm1 (by norm_num)
      (by norm_num; omega)
    norm_num at this ⊢
    exact this
  rw [hshl4]
  have hor4 : jsOr (((subnet + univ / 16) % 16) * 16) (univ % 16) =
      ((subnet + univ / 16) % 16) * 16 + univ % 16 := by
    apply jsOr_disjoint (k := 4) (by positivity) hm2 (by norm_num; omega)
      ⟨(subnet + univ / 16) % 16, by ring⟩ (by omega)
  rw [hor4]
  have hshl8 : jsShl (net + (subnet + univ / 16) / 16) 8 =
      (net + (subnet + univ / 16) / 16) * 256 := by
    have := jsShl_small (a := net + (subnet + univ / 16) / 16) (k := 8) hcn0 (by norm_num)
      (by norm_num; omega)
    norm_num at this ⊢
    exact this
  rw [hshl8, add_assoc]
  apply jsOr_disjoint (k := 8) (by positivity) (by omega) (by norm_num; omega)
    ⟨net + (subnet + univ / 16) / 16, by ring⟩ (by nlinarith)

/-- `Sender.transmit` on the 512-entry buffer produces exactly the generic
ArtDmx encoding of that buffer. -/
theorem transmit_eq_encode {seq subuni net : Nat} {values : List Nat}
    (h : values.length = 512) :
    transmitPacket seq subuni net values = encodeArtDmx seq subuni net values := by
  unfold transmitPacket encodeArtDmx
  rw [h]

/-! ## Claim C1 -/

/-- C1, counterexample.  The claim says a Receiver is delivered the channel
array if and only if the low-byte port address of the packet equals the low
byte of the PortAddress of the Receiver and the source lies in the CIDR
filter.  For a Receiver with net 1 (port address 256) and a packet whose
port-address byte is 0 that criterion holds (both low bytes are 0 and the
default filter accepts every source), yet `acceptPacket` compares the byte
against the full 15-bit port address, so nothing is delivered. -/
theorem dmx_low_byte_match_refuted :
    rxNet1.port_address = 256 ∧
    rxNet1.port_address % 256 = 0 ∧
    dmxPAddress msgC1 = some 0 ∧
    rxNet1.ipnet.contains (ipOf 10 0 0 5) = true ∧
    headerGate msgC1 = true ∧ opcodeOf msgC1 = 0x5000 ∧
    receivesDmx rxNet1 msgC1 (ipOf 10 0 0 5) = false := by
  decide

/-- C1, amended.  A registered Receiver is delivered the decoded channel
array if and only if the byte at offset 14 equals the full combined
port address of the Receiver and the datagram source lies inside the CIDR
filter of the Receiver; the spec example holds: the Receiver with
from 10.0.0.5/32 and universe 3 accepts the matching packet from 10.0.0.5
and rejects the same packet from 10.0.0.6 or with a different universe. -/
theorem dmx_delivery_characterization :
    (∀ (r : Receiver) (msg : List Nat) (srcIp : Nat),
        receivesDmx r msg srcIp = true ↔
          headerGate msg = true ∧ opcodeOf msg = 0x5000 ∧
          ∃ p, dmxPAddress msg = some p ∧ (p : Int) = r.port_address ∧
            r.ipnet.contains srcIp = true) ∧
    receivesDmx rx1035 msgU3 (ipOf 10 0 0 5) = true ∧
    receivesDmx rx1035 msgU3 (ipOf 10 0 0 6) = false ∧
    receivesDmx rx1035 msgU4 (ipOf 10 0 0 5) = false := by
  refine ⟨?_, by decide, by decide, by decide⟩
  intro r msg srcIp
  unfold receivesDmx
  cases h : dmxPAddress msg with
  | none => simp [h]
  | some p =>
    simp only [h, Bool.and_eq_true, beq_iff_eq, acceptPacket]
    constructor
    · rintro ⟨⟨hg, hop⟩, hpa, hct⟩
      exact ⟨hg, hop, p, rfl, hpa, hct⟩
    · rintro ⟨hg, hop, q, hq, hpa, hct⟩
      obtain rfl : p = q := by simpa using hq
      exact ⟨⟨hg, hop⟩, hpa, hct⟩

/-! ## Claim C2 -/

/-- C2.  Encoding an ArtDmx packet for any channel array of length 1..512
with byte values and any in-range sequence, subuni and net bytes, then
decoding it, reproduces the exact channel array, the sequence byte, the
low-byte port address at offset 14 and the net byte, and the packet passes
the parser gate with opcode 0x5000. -/
theorem artdmx_roundtrip {seq subuni net : Nat} {data : List Nat}
    (_hlen1 : 1 ≤ data.length) (_hlen2 : data.length ≤ 512)
    (hseq : seq ≤ 255) (hsub : subuni ≤ 255) (hnet : net ≤ 255)
    (hdata : ∀ v ∈ data, v ≤ 255) :
    artDmxData (encodeArtDmx seq subuni net data) = data ∧
    dmxSeqByte (encodeArtDmx seq subuni net data) = some seq ∧
    dmxPAddress (encodeArtDmx seq subuni net data) = some subuni ∧
    dmxNetByte (encodeArtDmx seq subuni net data) = some net ∧
    headerGate (encodeArtDmx seq subuni net data) = true ∧
    opcodeOf (encodeArtDmx seq subuni net data) = 0x5000 := by
  have hmap : data.map (· % 256) = data := by
    rw [List.map_congr_left (g := id) ?_, List.map_id]
    intro v hv
    exact Nat.mod_eq_of_lt (by have := hdata v hv; omega)
  have henc : encodeArtDmx seq subuni net data =
      [65, 114, 116, 45, 78, 101, 116, 0, 0, 80, 0, 14, seq % 256, 0, subuni % 256,
        net % 256, data.length / 256 % 256, data.length % 256] ++ data := by
    simp [encodeArtDmx, artnetHeader, packH, hmap]
  refine ⟨?_, ?_, ?_, ?_, ?_, ?_⟩
  · rw [henc]
    unfold artDmxData
    simp
  · rw [henc]
    unfold dmxSeqByte
    simp [Nat.mod_eq_of_lt (by omega : seq < 256)]
  · rw [henc]
    unfold dmxPAddress
    simp [Nat.mod_eq_of_lt (by omega : subuni < 256)]
  · rw [henc]
    unfold dmxNetByte
    simp [Nat.mod_eq_of_lt (by omega : net < 256)]
  · rw [henc]
    unfold headerGate opcodeOf artnetHeader
    simp
  · rw [henc]
    unfold opcodeOf
    simp

/-- C2 witness for the roundtrip at a concrete packet. -/
theorem artdmx_roundtrip_witness :
    artDmxData (encodeArtDmx 5 19 2 [7, 255]) = [7, 255] ∧
    dmxSeqByte (encodeArtDmx 5 19 2 [7, 255]) = some 5 ∧
    dmxPAddress (encodeArtDmx 5 19 2 [7, 255]) = some 19 ∧
    dmxNetByte (encodeArtDmx 5 19 2 [7, 255]) = some 2 ∧
    headerGate (encodeArtDmx 5 19 2 [7, 255]) = true ∧
    opcodeOf (encodeArtDmx 5 19 2 [7, 255]) = 0x5000 :=
  artdmx_roundtrip (by decide) (by decide) (by decide) (by decide) (by decide)
    (by decide)

/-! ## Claim C3 -/

/-- C3.  The ArtPollReply decoder does not read the universe of port slot i
from the low 4 bits of byte i of the swIn/swOut wire array, nor the good
flag from byte i of the good-input/good-output array.  The own encoder of
the engine, packing one output port with universe 1 and its good flag set,
produces swOut wire bytes [1,0,0,0] and goodOutput wire bytes [1,0,0,0]
(universe nibble in the low 4 bits of byte 0, good flag in byte 0), yet
decoding that very packet records universe 0 and isGood false: the decoder
reads the high nibble of byte 0 and bit 0 of byte 3 instead.  A wire field
with byte 0 equal to 0x10 decodes slot 0 to universe 1 although its low
nibble is 0. -/
theorem pollreply_port_decode_mismatch :
    packPortFields [⟨true, 1⟩] = (0x40, 0, 1, 0, 1) ∧
    swWire 1 = [1, 0, 0, 0] ∧
    goodWire 1 = [1, 0, 0, 0] ∧
    portTypesWire 0x40 = [0, 0, 0, 0x40] ∧
    (swWire 1).getD 0 0 % 16 = 1 ∧
    (goodWire 1).getD 0 0 = 1 ∧
    parseReplyPorts 1 (portTypesWire 0x40) (goodWire 0) (goodWire 1) (swWire 0) (swWire 1)
        0 0 99 0 =
      ([], [⟨0, 0, 0, 99, 0, false⟩]) ∧
    decodedUniverse (combine32 [0x10, 0, 0, 0]) 0 = 1 ∧
    decodedGood (combine32 [1, 0, 0, 0]) 0 = false := by
  refine ⟨by decide, by decide, by decide, by decide, by decide, by decide, ?_,
    by decide, by decide⟩
  decide

/-! ## Claim C4 -/

/-- C4, counterexample.  The claim says construction fails exactly when the
combined value after carrying exceeds 32767 and inputs are never silently
truncated.  With net 2^24 the combined value after carrying is 2^24 * 256,
far above 32767, yet the 32-bit wrap of the shift makes the stored port
address 0 and no error is raised. -/
theorem port_address_wrap_counterexample :
    ((16777216 : Int) + (0 + (0 : Int) / 16) / 16) * 256 +
        ((0 + (0 : Int) / 16) % 16) * 16 + (0 : Int) % 16 > 32767 ∧
    portAddressError 16777216 0 0 = false ∧
    port_address 16777216 0 0 = 0 := by
  refine ⟨by decide, by decide, by decide⟩

/-- C4, amended.  For nonnegative raw inputs small enough that the 32-bit
coercions of the JavaScript shift operators do not wrap (universe and the
carried subnet below 2^31, the carried net below 2^23), the constructor
first carries universe overflow into subnet and subnet overflow into net
(keeping the low 4 bits of each) and the stored port address is exactly the
carried combination; the Invalid Port Address error is raised precisely
when that combination exceeds 32767. -/
theorem port_address_carry_validate {net subnet univ : Int}
    (hn : 0 ≤ net) (hs : 0 ≤ subnet) (hu : 0 ≤ univ)
    (hu31 : univ < 2147483648)
    (hcs : subnet + univ / 16 < 2147483648)
    (hcn : net + (subnet + univ / 16) / 16 < 8388608) :
    port_address net subnet univ =
      (net + (subnet + univ / 16) / 16) * 256 +
        ((subnet + univ / 16) % 16) * 16 + univ % 16 ∧
    (portAddressError net subnet univ = true ↔
      (net + (subnet + univ / 16) / 16) * 256 +
        ((subnet + univ / 16) % 16) * 16 + univ % 16 > 32767) := by
  have h := port_address_carry hn hs hu hu31 hcs hcn
  refine ⟨h, ?_⟩
  unfold portAddressError
  rw [h]
  simp [decide_eq_true_eq]

/-- C4 witness: net 127, subnet 15, universe 16 carries to the combined
value 32768 and raises the error. -/
theorem port_address_carry_validate_witness :
    port_address 127 15 16 = 32768 ∧ portAddressError 127 15 16 = true := by
  have h := @port_address_carry_validate 127 15 16
    (by norm_num) (by norm_num) (by norm_num) (by norm_num) (by norm_num) (by norm_num)
  constructor
  · rw [h.1]; norm_num
  · rw [h.2]; norm_num

/-! ## Claim C5 -/

/-- C5, counterexample.  The claim says every ArtDmx buffer under 18 bytes
is silently discarded and delivered to no receiver.  The parser has no such
check: a 15-byte buffer with valid header, opcode 0x5000 and a matching
port-address byte at offset 14 is delivered to the matching receiver (with
an empty channel array). -/
theorem short_artdmx_delivered :
    msg15.length < 18 ∧ receivesDmx (mkReceiver 0 0 3 none) msg15 9 = true ∧
    artDmxData msg15 = [] := by
  decide

/-- C5, amended.  The parser rejects buffers under 10 bytes (delivering to
no receiver); the decoded payload length always equals the total size minus
18 (truncated at zero, so buffers of 15..17 bytes with a matching
port-address byte are delivered an empty array, as `msg15` shows); the
port-address low byte is read at offset 14. -/
theorem artdmx_size_handling :
    (∀ (r : Receiver) (msg : List Nat) (srcIp : Nat),
        msg.length < 10 → receivesDmx r msg srcIp = false) ∧
    (∀ msg : List Nat, (artDmxData msg).length = msg.length - 18) ∧
    (∀ msg : List Nat, dmxPAddress msg = msg[14]?) ∧
    receivesDmx (mkReceiver 0 0 3 none) msg15 9 = true := by
  refine ⟨?_, ?_, fun _ => rfl, by decide⟩
  · intro r msg srcIp hlen
    unfold receivesDmx headerGate
    have hd : decide (msg.length ≥ 10) = false := by
      simp only [decide_eq_false_iff_not]
      omega
    simp [hd]
  · intro msg
    show (msg.drop 18).length = msg.length - 18
    exact List.length_drop 18 msg

/-- C5 witness: the empty buffer is rejected. -/
theorem artdmx_size_handling_witness :
    receivesDmx (mkReceiver 0 0 3 none) [] 9 = false :=
  artdmx_size_handling.1 (mkReceiver 0 0 3 none) [] 9 (by decide)

/-! ## Claim C6 -/

/-- C6, counterexample.  The claim says an ArtPoll whose 2-byte big-endian
protocol-version field holds a value below 14 is silently discarded.  A
14-byte ArtPoll with version bytes 0 and 13 (big-endian value 13) is
accepted: the decoder assembles the field little-endian as 0 + 13 * 256 =
3328, which passes the check, so a controller record is produced and a
reply is sent. -/
theorem artpoll_proto_big_endian_refuted :
    msgPollBE13.length = 14 ∧ pollProtoBigEndian msgPollBE13 = 13 ∧
    (parseArtPoll msgPollBE13 7).isSome = true := by
  decide

/-- C6, amended.  An inbound ArtPoll is silently discarded, with no
controller record produced and no ArtPollReply sent, exactly when the
packet fails the header/opcode gate, the payload is under 14 bytes, or the
protocol-version field read little-endian (byte 10 plus 256 times byte 11)
is below 14. -/
theorem artpoll_reject_characterization : ∀ (msg : List Nat) (srcIp : Nat),
    parseArtPoll msg srcIp = none ↔
      ¬ (headerGate msg = true ∧ opcodeOf msg = 0x2000) ∨ msg.length < 14 ∨
        msg.getD 10 0 + msg.getD 11 0 * 256 < 14 := by
  intro msg srcIp
  unfold parseArtPoll
  rcases Nat.lt_or_ge msg.length 14 with hl | hl <;>
    rcases Nat.lt_or_ge (msg.getD 10 0 + msg.getD 11 0 * 256) 14 with hp | hp <;>
      by_cases hg : (headerGate msg && (opcodeOf msg == 0x2000)) = true <;>
        simp_all [Bool.and_eq_true, beq_iff_eq]

/-! ## Claim C7 -/

/-- C7.  A single `pollReply()` invocation with 6 Senders sharing one
interface, net and subnet (with arbitrary universes) emits exactly 2
ArtPollReply packets with bind indices 0 and 1 describing 4 and 2 ports
(each at most 4), increments the global reply counter modulo 10000 exactly
once for the whole invocation, and records the last-reply timestamp once. -/
theorem pollreply_six_senders (u1 u2 u3 u4 u5 u6 : Int) (ip : Nat) (n s : Int)
    (c now : Nat) :
    pollReply [⟨[ip], n, s, u1, true⟩, ⟨[ip], n, s, u2, true⟩, ⟨[ip], n, s, u3, true⟩,
        ⟨[ip], n, s, u4, true⟩, ⟨[ip], n, s, u5, true⟩, ⟨[ip], n, s, u6, true⟩] c now =
      ([{ ifaceIp := ip, bindIndex := 0, numPorts := 4 },
        { ifaceIp := ip, bindIndex := 1, numPorts := 2 }], (c + 1) % 10000, now) := by
  simp [pollReply, groupDevices, addToGroups, groupPackets, List.range_succ]

/-! ## Claim C8 -/

/-- C8, counterexample.  The claim says `upsertNode` reports whether any
observable field of the node, including the status, differed.  A second
update whose record differs from the stored node only in the node-report
string returns changed = false: the status is overwritten after the
comparison and is not tracked. -/
theorem upsert_status_untracked :
    node1.status ≠ rec1.nodeReport ∧
    (updateFromArtPollReply ifA node1 rec1 200).2 = false := by
  decide

/-- C8, amended.  For a record with the matching MAC, `upsertNode` returns
changed exactly when the IP, short name, long name or merged port tables of
the node differ from before the update; the status/report string and the
timestamp are overwritten after the comparison and do not count.  In
particular a byte-identical second update returns false, and an update
differing in the short name or in the good flag of a recorded port returns
true. -/
theorem upsert_change_characterization :
    (∀ (ifaces : List (Nat × Netmask)) (node : NodeS) (data : ReplyRecord) (now : Nat),
        node.mac = data.mac →
          (updateFromArtPollReply ifaces node data now).2 =
            decide (¬ (node.ip = some data.ip ∧ node.shortName = data.shortName ∧
              node.longName = data.longName ∧
              node.inPorts = updatePorts ifaces data.inPorts node.inPorts ∧
              node.outPorts = updatePorts ifaces data.outPorts node.outPorts))) ∧
    (updateFromArtPollReply ifA node1 rec0 200).2 = false ∧
    (updateFromArtPollReply ifA node1 rec2 200).2 = true ∧
    (updateFromArtPollReply ifA node1 rec3 200).2 = true := by
  refine ⟨?_, by decide, by decide, by decide⟩
  intro ifaces node data now h
  unfold updateFromArtPollReply
  rw [if_neg (not_not_intro h)]
  rw [decide_eq_decide]
  obtain ⟨m, i, sn, ln, st, lu, ip_, op_⟩ := node
  refine not_congr ?_
  simp only [NodeS.mk.injEq, true_and, and_true, eq_self_iff_true]

/-- C8 witness: the characterization applied to the concrete repeat
update. -/
theorem upsert_change_characterization_witness :
    (updateFromArtPollReply ifA node1 rec0 200).2 = false := by
  rw [upsert_change_characterization.1 ifA node1 rec0 200 (by decide)]
  decide

/-! ## Claim C9 -/

/-- C9.  The scheduled periodic ArtPoll is skipped exactly when the last
ArtPollReply timestamp lies within the last pollInterval/2 milliseconds
(as 2 * (now - last) < interval, the exact integer form of the JavaScript
real division); consequently an accepted inbound ArtPoll at time t0, which
sends a reply and stores t0, suppresses a scheduled poll at any time t1
with 2 * (t1 - t0) < interval. -/
theorem poll_skip_suppression :
    (∀ (interval : Nat) (last now : Int),
        scheduledPollSends interval last now = false ↔
          2 * (now - last) < (interval : Int)) ∧
    (∀ (interval : Nat) (msg : List Nat) (srcIp : Nat) (last t0 t1 : Int),
        (parseArtPoll msg srcIp).isSome = true →
        2 * (t1 - t0) < (interval : Int) →
        scheduledPollSends interval (lastReplyAfterArtPoll msg srcIp last t0) t1 =
          false) := by
  constructor
  · intro interval last now
    unfold scheduledPollSends shouldSkipPoll
    simp
  · intro interval msg srcIp last t0 t1 hsome hwin
    unfold scheduledPollSends shouldSkipPoll lastReplyAfterArtPoll
    rw [if_pos (by simpa using hsome)]
    simpa using hwin

/-- C9 witness: a valid ArtPoll at time 500 suppresses the scheduled poll
at time 900 for a 1000 ms interval. -/
theorem poll_skip_suppression_witness :
    scheduledPollSends 1000 (lastReplyAfterArtPoll msgPollOk 7 0 500) 900 = false :=
  poll_skip_suppression.2 1000 msgPollOk 7 0 500 900 (by decide) (by decide)

/-! ## Claim C10 -/

/-- C10.  `setChannel` and `prepChannel` with a channel outside 0..511 or a
value outside 0..255, and `fillChannels` with an out-of-range start, stop
or value, raise an error synchronously (the range check throws before any
statement after it runs) and leave the channel buffer exactly as it was. -/
theorem channel_range_errors :
    (∀ (values : List Int) (channel value : Int),
        channel > 511 ∨ channel < 0 ∨ value > 255 ∨ value < 0 →
          (setChannel values channel value).1.isSome = true ∧
          (setChannel values channel value).2 = values ∧
          (prepChannel values channel value).1.isSome = true ∧
          (prepChannel values channel value).2 = values) ∧
    (∀ (values : List Int) (start stop value : Int),
        start > 511 ∨ start < 0 ∨ stop > 511 ∨ stop < 0 ∨ value > 255 ∨ value < 0 →
          (fillChannels values start stop value).1.isSome = true ∧
          (fillChannels values start stop value).2 = values) := by
  constructor
  · intro values channel value h
    unfold setChannel prepChannel
    split_ifs with h1 h2 <;> simp_all <;> omega
  · intro values start stop value h
    unfold fillChannels
    split_ifs with h1 h2 h3 <;> simp_all <;> omega

/-- C10 witness: channel 600 raises and leaves the buffer unchanged. -/
theorem channel_range_errors_witness :
    (setChannel [0, 0] 600 5).1.isSome = true ∧
    (setChannel [0, 0] 600 5).2 = [0, 0] ∧
    (prepChannel [0, 0] 600 5).1.isSome = true ∧
    (prepChannel [0, 0] 600 5).2 = [0, 0] :=
  channel_range_errors.1 [0, 0] 600 5 (by omega)

end Hartnet
